import Mathlib

/-
Verification development for the forward-shooting equilibrium solver
(`solvers.py`, class `ShootingSolver`).

The numeric scalar type of the Python code (IEEE float) is embedded as ℚ.
The external numeric collaborators are embedded as explicit parameters:

* the scipy ODE integrator is a state record `Integrator` (current
  independent variable `t`, state vector `y = (y0, y1)` standing for
  `(mu, theta)`, and the `successful()` flag) together with an oracle
  function `Config.oracle : ℚ → Integrator → Integrator` giving the effect
  of one `integrate(target)` call (scipy's stepper is numeric black-box
  code outside this repository);
* the sympy-lambdified wage and profit evaluators are oracle functions
  `Config.wageFn, Config.profitFn : ℚ → ℚ → ℚ → ℚ` taking `(x, mu, theta)`.

Python `assert` failures are embedded as `Except.error` / the
`Outcome.assertionError` terminal outcome.  The unbounded `while` loops of
the two driver methods are embedded as fuel-indexed recursion; running out
of fuel is the artificial `Outcome.outOfFuel` result that never occurs at
sufficiently large fuel for a terminating run.
-/

namespace ShootingSolver

/-- State of the scipy `integrate.ode` object: independent variable `t`,
dependent state `y = [y0, y1] = [mu, theta]`, and the `successful()` flag. -/
structure Integrator where
  t : ℚ
  y0 : ℚ
  y1 : ℚ
  success : Bool
deriving DecidableEq

/-- One row `(x, mu, theta, wage, profit)` of the solution array built by
`np.hstack` / `np.vstack` in the driver. -/
structure Row where
  x : ℚ
  mu : ℚ
  theta : ℚ
  wage : ℚ
  profit : ℚ
deriving DecidableEq

/-- The mutable attributes of a `ShootingSolver` instance touched by the
driver: the integrator and the solution array (a list of rows). -/
structure SolverState where
  integrator : Integrator
  solution : List Row
deriving DecidableEq

/-- The data the solver reads from the external `models.Model` collaborator:
the assortativity flag (a string in the Python code) and the four domain
bounds `workers.lower/upper`, `firms.lower/upper`. -/
structure Model where
  assortativity : String
  workersLower : ℚ
  workersUpper : ℚ
  firmsLower : ℚ
  firmsUpper : ℚ

/-- The external numeric collaborators: the effect of one
`integrator.integrate(target)` call, and the compiled numeric wage and
profit functions `(x, mu, theta) ↦ value`. -/
structure Config where
  oracle : ℚ → Integrator → Integrator
  wageFn : ℚ → ℚ → ℚ → ℚ
  profitFn : ℚ → ℚ → ℚ → ℚ

/-- The bisection bracket of the driver: `firm_size_lower`,
`firm_size_upper` and the current midpoint `guess_firm_size`. -/
structure BisectionBracket where
  lower : ℚ
  upper : ℚ
  guess : ℚ
deriving DecidableEq

/-- Terminal classification of a driver run. -/
inductive Outcome where
  | successAllMatched
  | successExcessFirms
  | successExcessWorkers
  | guessUpperTooLow
  | integrationFailure
  | assertionError (mesg : String)
  | outOfFuel
deriving DecidableEq

/-- Result of a driver run: terminal outcome, final solver state, final
bracket, and the number of `integrate` calls that were performed. -/
structure DriverResult where
  outcome : Outcome
  state : SolverState
  bracket : BisectionBracket
  steps : ℕ
deriving DecidableEq

/-- Result of one iteration of a driver `while` loop body: either the loop
halts with an outcome (the flag records whether this iteration performed an
`integrate` call), or it continues with a new bracket and state (such an
iteration always performed exactly one `integrate` call). -/
inductive IterOut where
  | halt (out : Outcome) (s : SolverState) (br : BisectionBracket) (integrated : Bool)
  | next (br : BisectionBracket) (s : SolverState)

/-- `evaluate_wage`: computes the wage from the compiled numeric function
and asserts `wage > 0.0` ("Wage should be non-negative!"). -/
def evaluate_wage (cfg : Config) (x mu theta : ℚ) : Except String ℚ :=
  let wage := cfg.wageFn x mu theta
  if 0 < wage then Except.ok wage else Except.error "Wage should be non-negative!"

/-- `evaluate_profit`: computes the profit from the compiled numeric
function and asserts `profit > 0.0` ("Profit should be non-negative!"). -/
def evaluate_profit (cfg : Config) (x mu theta : ℚ) : Except String ℚ :=
  let profit := cfg.profitFn x mu theta
  if 0 < profit then Except.ok profit else Except.error "Profit should be non-negative!"

/-- `_almost_zero_profit(profit, tol)`: `profit <= tol`. -/
def almost_zero_profit (profit tol : ℚ) : Bool :=
  decide (profit ≤ tol)

/-- `_almost_zero_wage(wage, tol)`: `wage <= tol`. -/
def almost_zero_wage (wage tol : ℚ) : Bool :=
  decide (wage ≤ tol)

/-- `_converged_firms(bound, tol)`: `abs(self.integrator.y[0] - bound) <= tol`.
Note the Python code reads `y[0]`, the `mu` component. -/
def converged_firms (ig : Integrator) (bound tol : ℚ) : Bool :=
  if |ig.y0 - bound| ≤ tol then true else false

/-- `_converged_workers(bound, tol)`: `abs(self.integrator.t - bound) <= tol`. -/
def converged_workers (ig : Integrator) (bound tol : ℚ) : Bool :=
  if |ig.t - bound| ≤ tol then true else false

/-- `_exhausted_firms(bound, tol)`: `self.integrator.y[0] - bound < -tol`.
Note the Python code reads `y[0]`, the `mu` component. -/
def exhausted_firms (ig : Integrator) (bound tol : ℚ) : Bool :=
  if ig.y0 - bound < -tol then true else false

/-- `_exhausted_workers(bound, tol)`: direction dependent test on
`self.integrator.t`, branching on `self.model.assortativity == 'positive'`. -/
def exhausted_workers (assortativity : String) (ig : Integrator) (bound tol : ℚ) : Bool :=
  if assortativity = "positive" then
    if ig.t - bound < -tol then true else false
  else
    if ig.t - bound > tol then true else false

/-- `_guess_firm_size_upper_too_low(bound, tol)`:
`abs(self.integrator.y[1] - bound) <= tol` (this one reads `y[1] = theta`). -/
def guess_firm_size_upper_too_low (ig : Integrator) (bound tol : ℚ) : Bool :=
  decide (|ig.y1 - bound| ≤ tol)

/-- `_reset_negative_assortative_solution(firm_size)`: set the integrator
initial value to `V0 = [firms.upper, firm_size]` at `x = workers.lower`
(the `successful` flag is untouched), then replace the solution array with
the single row `(x_lower, mu0, theta0, wage, profit)`. -/
def reset_negative_assortative_solution (m : Model) (cfg : Config) (firm_size : ℚ)
    (s : SolverState) : Except String SolverState :=
  let x_lower := m.workersLower
  let y_upper := m.firmsUpper
  let ig : Integrator := { t := x_lower, y0 := y_upper, y1 := firm_size,
                           success := s.integrator.success }
  match evaluate_wage cfg x_lower y_upper firm_size with
  | Except.error e => Except.error e
  | Except.ok wage =>
    match evaluate_profit cfg x_lower y_upper firm_size with
    | Except.error e => Except.error e
    | Except.ok profit =>
      Except.ok { integrator := ig,
                  solution := [{ x := x_lower, mu := y_upper, theta := firm_size,
                                 wage := wage, profit := profit }] }

/-- `_reset_positive_assortative_solution(firm_size)`: same as the negative
variant but the initial condition is placed at `x = workers.upper`. -/
def reset_positive_assortative_solution (m : Model) (cfg : Config) (firm_size : ℚ)
    (s : SolverState) : Except String SolverState :=
  let x_upper := m.workersUpper
  let y_upper := m.firmsUpper
  let ig : Integrator := { t := x_upper, y0 := y_upper, y1 := firm_size,
                           success := s.integrator.success }
  match evaluate_wage cfg x_upper y_upper firm_size with
  | Except.error e => Except.error e
  | Except.ok wage =>
    match evaluate_profit cfg x_upper y_upper firm_size with
    | Except.error e => Except.error e
    | Except.ok profit =>
      Except.ok { integrator := ig,
                  solution := [{ x := x_upper, mu := y_upper, theta := firm_size,
                                 wage := wage, profit := profit }] }

/-- BisectionBracket update on a "guess too high" classification:
`firm_size_upper = guess_firm_size; guess_firm_size = 0.5 * (firm_size_upper + firm_size_lower)`. -/
def narrow_too_high (b : BisectionBracket) : BisectionBracket :=
  let upper := b.guess
  { lower := b.lower, upper := upper, guess := (1 / 2 : ℚ) * (upper + b.lower) }

/-- BisectionBracket update on a "guess too low" classification:
`firm_size_lower = guess_firm_size; guess_firm_size = 0.5 * (firm_size_upper + firm_size_lower)`. -/
def narrow_too_low (b : BisectionBracket) : BisectionBracket :=
  let lower := b.guess
  { lower := lower, upper := b.upper, guess := (1 / 2 : ℚ) * (b.upper + lower) }

/-- A bracket-narrowing step of either kind: `tooHigh = true` replaces the
upper bound with the previous guess, `tooHigh = false` replaces the lower
bound. -/
def narrow (tooHigh : Bool) (b : BisectionBracket) : BisectionBracket :=
  if tooHigh then narrow_too_high b else narrow_too_low b

/-- One iteration of the `while` loop body of
`_solve_negative_assortative_matching`, from the `while` condition check
down to the end of the classification `if/elif/else` chain.  An iteration
either halts the loop with an outcome or hands the (possibly reset) state
and (possibly narrowed) bracket to the next iteration. -/
def negIteration (m : Model) (cfg : Config) (guess_firm_size_upper tol step_size : ℚ)
    (br : BisectionBracket) (s : SolverState) : IterOut :=
  let x_upper := m.workersUpper
  let y_lower := m.firmsLower
  if s.integrator.success then
    if guess_firm_size_upper_too_low s.integrator guess_firm_size_upper tol then
      IterOut.halt Outcome.guessUpperTooLow s br false
    else
      -- walk the system forward one step
      let ig := cfg.oracle (s.integrator.t + step_size) s.integrator
      -- assert theta > 0.0, "Firm size should be non-negative!"
      if 0 < ig.y1 then
        match evaluate_wage cfg ig.t ig.y0 ig.y1 with
        | Except.error e => IterOut.halt (Outcome.assertionError e) ⟨ig, s.solution⟩ br true
        | Except.ok wage =>
          match evaluate_profit cfg ig.t ig.y0 ig.y1 with
          | Except.error e => IterOut.halt (Outcome.assertionError e) ⟨ig, s.solution⟩ br true
          | Except.ok profit =>
            -- update the putative equilibrium solution
            let s1 : SolverState :=
              ⟨ig, s.solution ++ [{ x := ig.t, mu := ig.y0, theta := ig.y1,
                                    wage := wage, profit := profit }]⟩
            if exhausted_workers m.assortativity ig x_upper tol then
              let br2 := narrow_too_high br
              match reset_negative_assortative_solution m cfg br2.guess s1 with
              | Except.error e => IterOut.halt (Outcome.assertionError e) s1 br2 true
              | Except.ok s2 => IterOut.next br2 s2
            else if exhausted_firms ig y_lower tol then
              let br2 := narrow_too_low br
              match reset_negative_assortative_solution m cfg br2.guess s1 with
              | Except.error e => IterOut.halt (Outcome.assertionError e) s1 br2 true
              | Except.ok s2 => IterOut.next br2 s2
            else if converged_workers ig x_upper tol then
              if converged_firms ig y_lower tol then
                IterOut.halt Outcome.successAllMatched s1 br true
              else if !exhausted_firms ig y_lower tol && almost_zero_profit profit tol then
                IterOut.halt Outcome.successExcessFirms s1 br true
              else if !exhausted_firms ig y_lower tol && !almost_zero_profit profit tol then
                let br2 := narrow_too_high br
                match reset_negative_assortative_solution m cfg br2.guess s1 with
                | Except.error e => IterOut.halt (Outcome.assertionError e) s1 br2 true
                | Except.ok s2 => IterOut.next br2 s2
              else
                let br2 := narrow_too_low br
                match reset_negative_assortative_solution m cfg br2.guess s1 with
                | Except.error e => IterOut.halt (Outcome.assertionError e) s1 br2 true
                | Except.ok s2 => IterOut.next br2 s2
            else if converged_firms ig y_lower tol then
              if converged_workers ig x_upper tol then
                -- the Python statement here is `assert "This case should have
                -- already been handled above!"`, a truthy no-op; the branch
                -- falls through and the loop continues
                IterOut.next br s1
              else if !exhausted_workers m.assortativity ig x_upper tol &&
                  almost_zero_wage wage tol then
                IterOut.halt Outcome.successExcessWorkers s1 br true
              else if !exhausted_workers m.assortativity ig x_upper tol &&
                  !almost_zero_wage wage tol then
                let br2 := narrow_too_low br
                match reset_negative_assortative_solution m cfg br2.guess s1 with
                | Except.error e => IterOut.halt (Outcome.assertionError e) s1 br2 true
                | Except.ok s2 => IterOut.next br2 s2
              else
                let br2 := narrow_too_high br
                match reset_negative_assortative_solution m cfg br2.guess s1 with
                | Except.error e => IterOut.halt (Outcome.assertionError e) s1 br2 true
                | Except.ok s2 => IterOut.next br2 s2
            else
              IterOut.next br s1
      else
        IterOut.halt (Outcome.assertionError "Firm size should be non-negative!")
          ⟨ig, s.solution⟩ br true
  else
    IterOut.halt Outcome.integrationFailure s br false

/-- The `while` loop of `_solve_negative_assortative_matching`, as
fuel-indexed iteration of `negIteration`; `steps` counts `integrate` calls. -/
def negLoop (m : Model) (cfg : Config) (guess_firm_size_upper tol step_size : ℚ) :
    ℕ → BisectionBracket → SolverState → DriverResult
  | 0, br, s => ⟨Outcome.outOfFuel, s, br, 0⟩
  | fuel + 1, br, s =>
    match negIteration m cfg guess_firm_size_upper tol step_size br s with
    | IterOut.halt out s2 br2 integrated => ⟨out, s2, br2, if integrated then 1 else 0⟩
    | IterOut.next br2 s2 =>
      let r := negLoop m cfg guess_firm_size_upper tol step_size fuel br2 s2
      ⟨r.outcome, r.state, r.bracket, r.steps + 1⟩

/-- One iteration of the `while` loop body of
`_solve_positive_assortative_matching`. -/
def posIteration (m : Model) (cfg : Config) (guess_firm_size_upper tol step_size : ℚ)
    (br : BisectionBracket) (s : SolverState) : IterOut :=
  let x_lower := m.workersLower
  let y_lower := m.firmsLower
  if s.integrator.success then
    if guess_firm_size_upper_too_low s.integrator guess_firm_size_upper tol then
      IterOut.halt Outcome.guessUpperTooLow s br false
    else
      -- walk the system forward one step (moving down the skill distribution)
      let ig := cfg.oracle (s.integrator.t - step_size) s.integrator
      -- assert theta > 0.0, "Firm size should be non-negative!"
      if 0 < ig.y1 then
        match evaluate_wage cfg ig.t ig.y0 ig.y1 with
        | Except.error e => IterOut.halt (Outcome.assertionError e) ⟨ig, s.solution⟩ br true
        | Except.ok wage =>
          match evaluate_profit cfg ig.t ig.y0 ig.y1 with
          | Except.error e => IterOut.halt (Outcome.assertionError e) ⟨ig, s.solution⟩ br true
          | Except.ok profit =>
            -- update the putative equilibrium solution
            let s1 : SolverState :=
              ⟨ig, s.solution ++ [{ x := ig.t, mu := ig.y0, theta := ig.y1,
                                    wage := wage, profit := profit }]⟩
            if converged_workers ig x_lower tol && converged_firms ig y_lower tol then
              IterOut.halt Outcome.successAllMatched s1 br true
            else if !converged_workers ig x_lower tol && exhausted_firms ig y_lower tol then
              let br2 := narrow_too_low br
              match reset_positive_assortative_solution m cfg br2.guess s1 with
              | Except.error e => IterOut.halt (Outcome.assertionError e) s1 br2 true
              | Except.ok s2 => IterOut.next br2 s2
            else if converged_workers ig x_lower tol && exhausted_firms ig y_lower tol then
              let br2 := narrow_too_low br
              match reset_positive_assortative_solution m cfg br2.guess s1 with
              | Except.error e => IterOut.halt (Outcome.assertionError e) s1 br2 true
              | Except.ok s2 => IterOut.next br2 s2
            else if converged_workers ig x_lower tol && !exhausted_firms ig y_lower tol then
              let br2 := narrow_too_high br
              match reset_positive_assortative_solution m cfg br2.guess s1 with
              | Except.error e => IterOut.halt (Outcome.assertionError e) s1 br2 true
              | Except.ok s2 => IterOut.next br2 s2
            else
              IterOut.next br s1
      else
        IterOut.halt (Outcome.assertionError "Firm size should be non-negative!")
          ⟨ig, s.solution⟩ br true
  else
    IterOut.halt Outcome.integrationFailure s br false

/-- The `while` loop of `_solve_positive_assortative_matching`, as
fuel-indexed iteration of `posIteration`; `steps` counts `integrate` calls. -/
def posLoop (m : Model) (cfg : Config) (guess_firm_size_upper tol step_size : ℚ) :
    ℕ → BisectionBracket → SolverState → DriverResult
  | 0, br, s => ⟨Outcome.outOfFuel, s, br, 0⟩
  | fuel + 1, br, s =>
    match posIteration m cfg guess_firm_size_upper tol step_size br s with
    | IterOut.halt out s2 br2 integrated => ⟨out, s2, br2, if integrated then 1 else 0⟩
    | IterOut.next br2 s2 =>
      let r := posLoop m cfg guess_firm_size_upper tol step_size fuel br2 s2
      ⟨r.outcome, r.state, r.bracket, r.steps + 1⟩

/-- A fresh solver state, before the first reset: the integrator created by
`set_integrator` has `successful() = true`, and no solution array has been
assigned yet (empty list). -/
def freshState : SolverState :=
  ⟨{ t := 0, y0 := 0, y1 := 0, success := true }, []⟩

/-- `_solve_negative_assortative_matching(guess_firm_size_upper, tol,
number_knots, integrator, **kwargs)`: initial bracket
`[0, guess_firm_size_upper]` with midpoint guess, reset at `workers.lower`,
step size `(x_upper - x_lower) / (number_knots - 1)`, then the `while`
loop. -/
def solve_negative_assortative_matching (m : Model) (cfg : Config)
    (guess_firm_size_upper tol : ℚ) (number_knots : ℕ) (fuel : ℕ) : DriverResult :=
  let x_lower := m.workersLower
  let x_upper := m.workersUpper
  let firm_size_lower : ℚ := 0
  let firm_size_upper := guess_firm_size_upper
  let guess_firm_size := (1 / 2 : ℚ) * (firm_size_upper + firm_size_lower)
  let br : BisectionBracket := ⟨firm_size_lower, firm_size_upper, guess_firm_size⟩
  let step_size := (x_upper - x_lower) / ((number_knots : ℚ) - 1)
  match reset_negative_assortative_solution m cfg guess_firm_size freshState with
  | Except.error e => ⟨Outcome.assertionError e, freshState, br, 0⟩
  | Except.ok s1 => negLoop m cfg guess_firm_size_upper tol step_size fuel br s1

/-- `_solve_positive_assortative_matching(guess_firm_size_upper, tol,
number_knots, integrator, **kwargs)`: same initialization but the reset is
at `workers.upper` and integration moves down. -/
def solve_positive_assortative_matching (m : Model) (cfg : Config)
    (guess_firm_size_upper tol : ℚ) (number_knots : ℕ) (fuel : ℕ) : DriverResult :=
  let x_lower := m.workersLower
  let x_upper := m.workersUpper
  let firm_size_lower : ℚ := 0
  let firm_size_upper := guess_firm_size_upper
  let guess_firm_size := (1 / 2 : ℚ) * (firm_size_upper + firm_size_lower)
  let br : BisectionBracket := ⟨firm_size_lower, firm_size_upper, guess_firm_size⟩
  let step_size := (x_upper - x_lower) / ((number_knots : ℚ) - 1)
  match reset_positive_assortative_solution m cfg guess_firm_size freshState with
  | Except.error e => ⟨Outcome.assertionError e, freshState, br, 0⟩
  | Except.ok s1 => posLoop m cfg guess_firm_size_upper tol step_size fuel br s1

/-- `solve(guess_firm_size_upper, tol=1e-6, number_knots=100,
integrator='dopri5', **kwargs)`: dispatches on
`self.model.assortativity == 'positive'` to one of the two driver methods.
The first component of the result is the driver's effect on the solver
state; the second component is the Python return value of the method, which
is `None` in every path (the method body contains no `return` statement). -/
def solve (m : Model) (cfg : Config) (guess_firm_size_upper tol : ℚ)
    (number_knots : ℕ) (fuel : ℕ) : DriverResult × Option (List Row) :=
  if m.assortativity = "positive" then
    (solve_positive_assortative_matching m cfg guess_firm_size_upper tol number_knots fuel,
     Option.none)
  else
    (solve_negative_assortative_matching m cfg guess_firm_size_upper tol number_knots fuel,
     Option.none)

/-- Unfolding lemma: the convergence predicate for firms compares the `y0`
(`mu`) component of the integrator state against the bound. -/
theorem converged_firms_eq_true (ig : Integrator) (bound tol : ℚ) :
    converged_firms ig bound tol = true ↔ |ig.y0 - bound| ≤ tol := by
  unfold converged_firms
  split <;> simp_all

/-- Unfolding lemma: the convergence predicate for workers compares the `t`
component of the integrator state against the bound. -/
theorem converged_workers_eq_true (ig : Integrator) (bound tol : ℚ) :
    converged_workers ig bound tol = true ↔ |ig.t - bound| ≤ tol := by
  unfold converged_workers
  split <;> simp_all

/-- Unfolding lemma: the exhaustion predicate for firms compares the `y0`
(`mu`) component of the integrator state against the bound. -/
theorem exhausted_firms_eq_true (ig : Integrator) (bound tol : ℚ) :
    exhausted_firms ig bound tol = true ↔ ig.y0 - bound < -tol := by
  unfold exhausted_firms
  split <;> simp_all

/-- Unfolding lemma for the direction-dependent worker-exhaustion predicate. -/
theorem exhausted_workers_eq_true (assortativity : String) (ig : Integrator)
    (bound tol : ℚ) :
    exhausted_workers assortativity ig bound tol = true ↔
      (if assortativity = "positive" then ig.t - bound < -tol else ig.t - bound > tol) := by
  unfold exhausted_workers
  split <;> split <;> simp_all

end ShootingSolver

open ShootingSolver

/-- Claim C1, counterexample: at the concrete integrator state
`(t, mu, theta) = (0, 5, 0)` with `bound = 0` and `tol = 1`, the `theta`
component (`y1 = 0`) is within tolerance of the bound, yet the predicate is
false, because `_converged_firms` reads `integrator.y[0] = mu = 5`.  So the
predicate does not hold exactly when `|theta - bound| <= tol`. -/
theorem C1_counterexample :
    ¬ (converged_firms ⟨0, 5, 0, true⟩ 0 1 = true ↔
        |(Integrator.mk 0 5 0 true).y1 - 0| ≤ 1) := by
  rw [converged_firms_eq_true]
  norm_num

/-- Claim C1, amended: for every bound and tolerance, the firms-convergence
predicate holds exactly when the `mu` state component `y[0]` is within
tolerance of the bound, `|mu - bound| <= tol`; the predicate reads the `mu`
component of the integrator state, not `theta`. -/
theorem C1_converged_firms_reads_mu (ig : Integrator) (bound tol : ℚ) :
    converged_firms ig bound tol = true ↔ |ig.y0 - bound| ≤ tol :=
  converged_firms_eq_true ig bound tol

/-- Claim C2, counterexample: at the concrete integrator state
`(t, mu, theta) = (0, 5, -10)` with `bound = 0` and `tol = 1`, the `theta`
component has fallen strictly more than the tolerance below the bound
(`-10 - 0 < -1`), yet the predicate is false, because `_exhausted_firms`
reads `integrator.y[0] = mu = 5`. -/
theorem C2_counterexample :
    ¬ (exhausted_firms ⟨0, 5, -10, true⟩ 0 1 = true ↔
        (Integrator.mk 0 5 (-10) true).y1 - 0 < -1) := by
  rw [exhausted_firms_eq_true]
  norm_num

/-- Claim C2, amended: for every bound and tolerance, the firms-exhaustion
predicate holds exactly when the `mu` state component `y[0]` has fallen
strictly more than the tolerance below the bound, `mu - bound < -tol`; the
predicate reads the `mu` component of the integrator state, not `theta`. -/
theorem C2_exhausted_firms_reads_mu (ig : Integrator) (bound tol : ℚ) :
    exhausted_firms ig bound tol = true ↔ ig.y0 - bound < -tol :=
  exhausted_firms_eq_true ig bound tol

/-- Claim C6: for every bound and non-negative tolerance, the convergence
and exhaustion predicates are mutually exclusive.  Whenever the state
component a predicate pair reads is within tolerance of its bound (the
convergence predicate holds), the corresponding exhaustion predicate —
workers, in both assortativity directions, and firms — returns false; a
trajectory exactly at tolerance is classified as converged, never as
exhausted. -/
theorem C6_converged_excludes_exhausted (assortativity : String) (ig : Integrator)
    (bound tol : ℚ) (htol : 0 ≤ tol) :
    (converged_workers ig bound tol = true →
      exhausted_workers assortativity ig bound tol = false) ∧
    (converged_firms ig bound tol = true →
      exhausted_firms ig bound tol = false) := by
  constructor
  · intro h
    rw [converged_workers_eq_true, abs_le] at h
    rw [← Bool.not_eq_true, exhausted_workers_eq_true]
    split
    · exact fun hc => absurd h.1 (by linarith)
    · exact fun hc => absurd h.2 (by linarith)
  · intro h
    rw [converged_firms_eq_true, abs_le] at h
    rw [← Bool.not_eq_true, exhausted_firms_eq_true]
    exact fun hc => absurd h.1 (by linarith)

/-- Claim C6, witness: concrete instance at the state
`(t, mu, theta) = (1, 1, 1)`, `bound = 0`, `tol = 1` (exactly at
tolerance), in the negative assortativity direction. -/
theorem C6_witness :
    (0 : ℚ) ≤ 1 ∧
    (converged_workers ⟨1, 1, 1, true⟩ 0 1 = true →
      exhausted_workers "negative" ⟨1, 1, 1, true⟩ 0 1 = false) ∧
    (converged_firms ⟨1, 1, 1, true⟩ 0 1 = true →
      exhausted_firms ⟨1, 1, 1, true⟩ 0 1 = false) :=
  ⟨by norm_num, C6_converged_excludes_exhausted "negative" ⟨1, 1, 1, true⟩ 0 1 (by norm_num)⟩

/-- Claim C8: `evaluate_wage` fails with the wage assertion exactly when
the computed wage is `<= 0` and otherwise returns the wage; likewise
`evaluate_profit` fails with the profit assertion exactly when the computed
profit is `<= 0` and otherwise returns the profit.  (The two implications
for each function cover the dichotomy `value <= 0` / `0 < value`, so each
direction of the "if and only if" is captured.) -/
theorem C8_wage_profit_assertions (cfg : Config) (x mu theta : ℚ) :
    (cfg.wageFn x mu theta ≤ 0 →
      evaluate_wage cfg x mu theta = Except.error "Wage should be non-negative!") ∧
    (0 < cfg.wageFn x mu theta →
      evaluate_wage cfg x mu theta = Except.ok (cfg.wageFn x mu theta)) ∧
    (cfg.profitFn x mu theta ≤ 0 →
      evaluate_profit cfg x mu theta = Except.error "Profit should be non-negative!") ∧
    (0 < cfg.profitFn x mu theta →
      evaluate_profit cfg x mu theta = Except.ok (cfg.profitFn x mu theta)) := by
  refine ⟨fun h => ?_, fun h => ?_, fun h => ?_, fun h => ?_⟩
  · simp [evaluate_wage, not_lt.mpr h]
  · simp [evaluate_wage, h]
  · simp [evaluate_profit, not_lt.mpr h]
  · simp [evaluate_profit, h]

/-- A configuration whose compiled wage and profit functions are the
constant `1` and whose integrator oracle is the identity on the state. -/
def cfgUnit : Config :=
  ⟨fun _ ig => ig, fun _ _ _ => 1, fun _ _ _ => 1⟩

/-- A configuration whose compiled wage and profit functions are the
constant `-1` (infeasible everywhere). -/
def cfgNegUnit : Config :=
  ⟨fun _ ig => ig, fun _ _ _ => -1, fun _ _ _ => -1⟩

/-- Claim C8, witness: at a configuration computing wage and profit `-1`
both evaluators fail with their assertion messages, and at a configuration
computing wage and profit `1` both return the value. -/
theorem C8_witness :
    (cfgNegUnit.wageFn 0 0 0 ≤ 0 ∧
      evaluate_wage cfgNegUnit 0 0 0 = Except.error "Wage should be non-negative!" ∧
      evaluate_profit cfgNegUnit 0 0 0 = Except.error "Profit should be non-negative!") ∧
    (0 < cfgUnit.wageFn 0 0 0 ∧
      evaluate_wage cfgUnit 0 0 0 = Except.ok 1 ∧
      evaluate_profit cfgUnit 0 0 0 = Except.ok 1) :=
  ⟨⟨by norm_num [cfgNegUnit],
    (C8_wage_profit_assertions cfgNegUnit 0 0 0).1 (by norm_num [cfgNegUnit]),
    (C8_wage_profit_assertions cfgNegUnit 0 0 0).2.2.1 (by norm_num [cfgNegUnit])⟩,
   ⟨by norm_num [cfgUnit],
    (C8_wage_profit_assertions cfgUnit 0 0 0).2.1 (by norm_num [cfgUnit]),
    (C8_wage_profit_assertions cfgUnit 0 0 0).2.2.2 (by norm_num [cfgUnit])⟩⟩

/-- Claim C4: after a bracket-narrowing step of either kind (the updates
performed by both shooting-driver variants, `narrow_too_high` and
`narrow_too_low`), exactly one of the two bracket bounds has been replaced
by the previous midpoint guess — the other bound is unchanged and differs
from the guess — the new guess is the midpoint of the new bracket,
`0 <= firm_size_lower < guess < firm_size_upper` holds, and the new bracket
width is exactly half the previous width. -/
theorem C4_bracket_narrowing_step (b : BisectionBracket) (tooHigh : Bool)
    (hguess : b.guess = (1 / 2 : ℚ) * (b.upper + b.lower))
    (hlow : 0 ≤ b.lower) (hlt : b.lower < b.upper) :
    (if tooHigh then
        (narrow tooHigh b).upper = b.guess ∧ (narrow tooHigh b).lower = b.lower ∧
        (narrow tooHigh b).upper ≠ b.upper ∧ (narrow tooHigh b).lower ≠ b.guess
      else
        (narrow tooHigh b).lower = b.guess ∧ (narrow tooHigh b).upper = b.upper ∧
        (narrow tooHigh b).lower ≠ b.lower ∧ (narrow tooHigh b).upper ≠ b.guess) ∧
    (narrow tooHigh b).guess =
      (1 / 2 : ℚ) * ((narrow tooHigh b).upper + (narrow tooHigh b).lower) ∧
    0 ≤ (narrow tooHigh b).lower ∧
    (narrow tooHigh b).lower < (narrow tooHigh b).guess ∧
    (narrow tooHigh b).guess < (narrow tooHigh b).upper ∧
    (narrow tooHigh b).upper - (narrow tooHigh b).lower =
      (1 / 2 : ℚ) * (b.upper - b.lower) := by
  have hg1 : b.lower < b.guess := by rw [hguess]; linarith
  have hg2 : b.guess < b.upper := by rw [hguess]; linarith
  cases tooHigh
  · exact ⟨⟨rfl, rfl, ne_of_gt hg1, ne_of_gt hg2⟩, rfl,
      show (0 : ℚ) ≤ b.guess by linarith,
      show b.guess < (1 / 2 : ℚ) * (b.upper + b.guess) by linarith,
      show (1 / 2 : ℚ) * (b.upper + b.guess) < b.upper by linarith,
      show b.upper - b.guess = (1 / 2 : ℚ) * (b.upper - b.lower) by
        rw [hguess]; ring⟩
  · exact ⟨⟨rfl, rfl, ne_of_lt hg2, ne_of_lt hg1⟩, rfl,
      show (0 : ℚ) ≤ b.lower from hlow,
      show b.lower < (1 / 2 : ℚ) * (b.guess + b.lower) by linarith,
      show (1 / 2 : ℚ) * (b.guess + b.lower) < b.guess by linarith,
      show b.guess - b.lower = (1 / 2 : ℚ) * (b.upper - b.lower) by
        rw [hguess]; ring⟩

/-- Claim C4, witness: one narrowing step of the "too high" kind on the
initial bracket `(0, 2)` with midpoint guess `1`. -/
theorem C4_witness :
    (BisectionBracket.mk 0 2 1).guess =
      (1 / 2 : ℚ) * ((BisectionBracket.mk 0 2 1).upper + (BisectionBracket.mk 0 2 1).lower) ∧
    (0 : ℚ) ≤ (BisectionBracket.mk 0 2 1).lower ∧
    (BisectionBracket.mk 0 2 1).lower < (BisectionBracket.mk 0 2 1).upper ∧
    ((if true then
        (narrow true ⟨0, 2, 1⟩).upper = (BisectionBracket.mk 0 2 1).guess ∧
        (narrow true ⟨0, 2, 1⟩).lower = (BisectionBracket.mk 0 2 1).lower ∧
        (narrow true ⟨0, 2, 1⟩).upper ≠ (BisectionBracket.mk 0 2 1).upper ∧
        (narrow true ⟨0, 2, 1⟩).lower ≠ (BisectionBracket.mk 0 2 1).guess
      else
        (narrow true ⟨0, 2, 1⟩).lower = (BisectionBracket.mk 0 2 1).guess ∧
        (narrow true ⟨0, 2, 1⟩).upper = (BisectionBracket.mk 0 2 1).upper ∧
        (narrow true ⟨0, 2, 1⟩).lower ≠ (BisectionBracket.mk 0 2 1).lower ∧
        (narrow true ⟨0, 2, 1⟩).upper ≠ (BisectionBracket.mk 0 2 1).guess) ∧
    (narrow true ⟨0, 2, 1⟩).guess =
      (1 / 2 : ℚ) * ((narrow true ⟨0, 2, 1⟩).upper + (narrow true ⟨0, 2, 1⟩).lower) ∧
    0 ≤ (narrow true ⟨0, 2, 1⟩).lower ∧
    (narrow true ⟨0, 2, 1⟩).lower < (narrow true ⟨0, 2, 1⟩).guess ∧
    (narrow true ⟨0, 2, 1⟩).guess < (narrow true ⟨0, 2, 1⟩).upper ∧
    (narrow true ⟨0, 2, 1⟩).upper - (narrow true ⟨0, 2, 1⟩).lower =
      (1 / 2 : ℚ) * ((BisectionBracket.mk 0 2 1).upper - (BisectionBracket.mk 0 2 1).lower)) :=
  ⟨by norm_num, by norm_num, by norm_num,
    C4_bracket_narrowing_step ⟨0, 2, 1⟩ true (by norm_num) (by norm_num) (by norm_num)⟩

/-- Claim C5: a trial reset with firm-size guess `g` sets the integrator to
the initial state `(mu = firms.upper, theta = g)` at `x = workers.lower`
for the negative-assortative variant and at `x = workers.upper` for the
positive-assortative variant (the `successful` flag untouched), and
replaces the solution table by the single row
`(x0, firms.upper, g, wage(x0, V0), profit(x0, V0))`, so row 0 is the
reset initial condition.  The hypotheses state that the wage and profit
positivity assertions pass at the two initial conditions. -/
theorem C5_reset_initial_condition (m : Model) (cfg : Config) (g : ℚ) (s : SolverState)
    (hw1 : 0 < cfg.wageFn m.workersLower m.firmsUpper g)
    (hp1 : 0 < cfg.profitFn m.workersLower m.firmsUpper g)
    (hw2 : 0 < cfg.wageFn m.workersUpper m.firmsUpper g)
    (hp2 : 0 < cfg.profitFn m.workersUpper m.firmsUpper g) :
    reset_negative_assortative_solution m cfg g s =
      Except.ok ⟨{ t := m.workersLower, y0 := m.firmsUpper, y1 := g,
                   success := s.integrator.success },
        [{ x := m.workersLower, mu := m.firmsUpper, theta := g,
           wage := cfg.wageFn m.workersLower m.firmsUpper g,
           profit := cfg.profitFn m.workersLower m.firmsUpper g }]⟩ ∧
    reset_positive_assortative_solution m cfg g s =
      Except.ok ⟨{ t := m.workersUpper, y0 := m.firmsUpper, y1 := g,
                   success := s.integrator.success },
        [{ x := m.workersUpper, mu := m.firmsUpper, theta := g,
           wage := cfg.wageFn m.workersUpper m.firmsUpper g,
           profit := cfg.profitFn m.workersUpper m.firmsUpper g }]⟩ := by
  constructor
  · simp [reset_negative_assortative_solution, evaluate_wage, evaluate_profit, hw1, hp1]
  · simp [reset_positive_assortative_solution, evaluate_wage, evaluate_profit, hw2, hp2]

/-- Claim C5, witness: a reset with guess `1` on the model with worker
domain `[0, 1]` and firm domain `[0, 1]`, unit wage and profit functions,
from the fresh state. -/
theorem C5_witness :
    (0 : ℚ) < cfgUnit.wageFn (Model.mk "negative" 0 1 0 1).workersLower
      (Model.mk "negative" 0 1 0 1).firmsUpper 1 ∧
    reset_negative_assortative_solution ⟨"negative", 0, 1, 0, 1⟩ cfgUnit 1 freshState =
      Except.ok ⟨{ t := (Model.mk "negative" 0 1 0 1).workersLower,
                   y0 := (Model.mk "negative" 0 1 0 1).firmsUpper, y1 := 1,
                   success := freshState.integrator.success },
        [{ x := (Model.mk "negative" 0 1 0 1).workersLower,
           mu := (Model.mk "negative" 0 1 0 1).firmsUpper, theta := 1,
           wage := cfgUnit.wageFn (Model.mk "negative" 0 1 0 1).workersLower
             (Model.mk "negative" 0 1 0 1).firmsUpper 1,
           profit := cfgUnit.profitFn (Model.mk "negative" 0 1 0 1).workersLower
             (Model.mk "negative" 0 1 0 1).firmsUpper 1 }]⟩ ∧
    reset_positive_assortative_solution ⟨"negative", 0, 1, 0, 1⟩ cfgUnit 1 freshState =
      Except.ok ⟨{ t := (Model.mk "negative" 0 1 0 1).workersUpper,
                   y0 := (Model.mk "negative" 0 1 0 1).firmsUpper, y1 := 1,
                   success := freshState.integrator.success },
        [{ x := (Model.mk "negative" 0 1 0 1).workersUpper,
           mu := (Model.mk "negative" 0 1 0 1).firmsUpper, theta := 1,
           wage := cfgUnit.wageFn (Model.mk "negative" 0 1 0 1).workersUpper
             (Model.mk "negative" 0 1 0 1).firmsUpper 1,
           profit := cfgUnit.profitFn (Model.mk "negative" 0 1 0 1).workersUpper
             (Model.mk "negative" 0 1 0 1).firmsUpper 1 }]⟩ :=
  ⟨by norm_num [cfgUnit],
    (C5_reset_initial_condition ⟨"negative", 0, 1, 0, 1⟩ cfgUnit 1 freshState
      (by norm_num [cfgUnit]) (by norm_num [cfgUnit])
      (by norm_num [cfgUnit]) (by norm_num [cfgUnit])).1,
    (C5_reset_initial_condition ⟨"negative", 0, 1, 0, 1⟩ cfgUnit 1 freshState
      (by norm_num [cfgUnit]) (by norm_num [cfgUnit])
      (by norm_num [cfgUnit]) (by norm_num [cfgUnit])).2⟩

/-- Claim C3, counterexample: at a concrete valid model (negative
assortativity, worker domain `[0, 1]`, firm domain `[0, 1]`) and a concrete
call `solve(guess_firm_size_upper = 2, tol = 1, number_knots = 3)`, the
Python return value of `solve` (the second component of the embedding) is
`None`: the method body has no `return` statement, so the call returns
nothing rather than a `SolutionTable` or a `Failure` value. -/
theorem C3_counterexample :
    (ShootingSolver.solve ⟨"negative", 0, 1, 0, 1⟩ cfgUnit 2 1 3 5).2 = Option.none := by
  simp [ShootingSolver.solve]

/-- Claim C3, amended: for every model and every call
`solve(guess_firm_size_upper, tol, number_knots, ...)`, the call returns
`None` (the method mutates the solver state — the solution table and the
integrator — and reports success or failure by printing, but has no
`return` statement in any path). -/
theorem C3_solve_returns_none (m : Model) (cfg : Config) (guess_firm_size_upper tol : ℚ)
    (number_knots fuel : ℕ) :
    (ShootingSolver.solve m cfg guess_firm_size_upper tol number_knots fuel).2 =
      Option.none := by
  unfold ShootingSolver.solve
  split <;> rfl

/-- Claim C10: `solve` dispatches on `self.model.assortativity == 'positive'`;
for every model whose assortativity is any string other than exactly
`"positive"` (including `"negative"` but also any invalid value) it runs the
negative-assortative driver, and the positive-assortative driver runs only
when the assortativity equals `"positive"`. -/
theorem C10_solve_dispatch (m : Model) (cfg : Config) (guess_firm_size_upper tol : ℚ)
    (number_knots fuel : ℕ) :
    (m.assortativity ≠ "positive" →
      ShootingSolver.solve m cfg guess_firm_size_upper tol number_knots fuel =
        (solve_negative_assortative_matching m cfg guess_firm_size_upper tol
          number_knots fuel, Option.none)) ∧
    (m.assortativity = "positive" →
      ShootingSolver.solve m cfg guess_firm_size_upper tol number_knots fuel =
        (solve_positive_assortative_matching m cfg guess_firm_size_upper tol
          number_knots fuel, Option.none)) := by
  constructor <;> intro h <;> simp [ShootingSolver.solve, h]

/-- Claim C10, witness: a model with the invalid assortativity string
`"invalid"` dispatches to the negative-assortative driver, and a model with
`"positive"` dispatches to the positive-assortative driver. -/
theorem C10_witness :
    ((Model.mk "invalid" 0 1 0 1).assortativity ≠ "positive" ∧
      ShootingSolver.solve ⟨"invalid", 0, 1, 0, 1⟩ cfgUnit 2 1 3 5 =
        (solve_negative_assortative_matching ⟨"invalid", 0, 1, 0, 1⟩ cfgUnit 2 1 3 5,
         Option.none)) ∧
    ((Model.mk "positive" 0 1 0 1).assortativity = "positive" ∧
      ShootingSolver.solve ⟨"positive", 0, 1, 0, 1⟩ cfgUnit 2 1 3 5 =
        (solve_positive_assortative_matching ⟨"positive", 0, 1, 0, 1⟩ cfgUnit 2 1 3 5,
         Option.none)) :=
  ⟨⟨by decide, (C10_solve_dispatch ⟨"invalid", 0, 1, 0, 1⟩ cfgUnit 2 1 3 5).1 (by decide)⟩,
   ⟨by decide, (C10_solve_dispatch ⟨"positive", 0, 1, 0, 1⟩ cfgUnit 2 1 3 5).2 (by decide)⟩⟩

/-- Claim C7: if at the top of a trial-loop iteration (of either driver
variant) the integrator is live and the firm-size state component `theta`
is within tolerance of the caller-supplied ceiling guess
(`_guess_firm_size_upper_too_low`), the loop terminates at once with the
`guessUpperTooLow` failure: the whole solver state (hence the solution
table, in particular a table holding only the reset row) and the bracket
are returned unchanged and zero further `integrate` calls are performed. -/
theorem C7_ceiling_hit_aborts_without_stepping (m : Model) (cfg : Config)
    (guess_firm_size_upper tol step_size : ℚ) (fuel : ℕ)
    (br : BisectionBracket) (s : SolverState)
    (hs : s.integrator.success = true)
    (h : guess_firm_size_upper_too_low s.integrator guess_firm_size_upper tol = true) :
    negLoop m cfg guess_firm_size_upper tol step_size (fuel + 1) br s =
      ⟨Outcome.guessUpperTooLow, s, br, 0⟩ ∧
    posLoop m cfg guess_firm_size_upper tol step_size (fuel + 1) br s =
      ⟨Outcome.guessUpperTooLow, s, br, 0⟩ := by
  constructor
  · show (match negIteration m cfg guess_firm_size_upper tol step_size br s with
      | IterOut.halt out s2 br2 integrated => ⟨out, s2, br2, if integrated then 1 else 0⟩
      | IterOut.next br2 s2 =>
        let r := negLoop m cfg guess_firm_size_upper tol step_size fuel br2 s2
        ⟨r.outcome, r.state, r.bracket, r.steps + 1⟩ : DriverResult) =
      ⟨Outcome.guessUpperTooLow, s, br, 0⟩
    rw [negIteration]
    rw [hs]
    simp [h]
  · show (match posIteration m cfg guess_firm_size_upper tol step_size br s with
      | IterOut.halt out s2 br2 integrated => ⟨out, s2, br2, if integrated then 1 else 0⟩
      | IterOut.next br2 s2 =>
        let r := posLoop m cfg guess_firm_size_upper tol step_size fuel br2 s2
        ⟨r.outcome, r.state, r.bracket, r.steps + 1⟩ : DriverResult) =
      ⟨Outcome.guessUpperTooLow, s, br, 0⟩
    rw [posIteration]
    rw [hs]
    simp [h]

/-- Claim C7, witness: with the firm-size state at `theta = 1`, ceiling
guess `1` and tolerance `1`, both loops halt immediately with the failure,
unchanged state and bracket, and zero integration steps. -/
theorem C7_witness :
    (SolverState.mk ⟨0, 1, 1, true⟩ []).integrator.success = true ∧
    guess_firm_size_upper_too_low (SolverState.mk ⟨0, 1, 1, true⟩ []).integrator 1 1 = true ∧
    negLoop ⟨"negative", 0, 1, 0, 1⟩ cfgUnit 1 1 1 (0 + 1) ⟨0, 2, 1⟩ ⟨⟨0, 1, 1, true⟩, []⟩ =
      ⟨Outcome.guessUpperTooLow, ⟨⟨0, 1, 1, true⟩, []⟩, ⟨0, 2, 1⟩, 0⟩ ∧
    posLoop ⟨"negative", 0, 1, 0, 1⟩ cfgUnit 1 1 1 (0 + 1) ⟨0, 2, 1⟩ ⟨⟨0, 1, 1, true⟩, []⟩ =
      ⟨Outcome.guessUpperTooLow, ⟨⟨0, 1, 1, true⟩, []⟩, ⟨0, 2, 1⟩, 0⟩ :=
  ⟨rfl, by norm_num [guess_firm_size_upper_too_low],
    (C7_ceiling_hit_aborts_without_stepping ⟨"negative", 0, 1, 0, 1⟩ cfgUnit 1 1 1 0
      ⟨0, 2, 1⟩ ⟨⟨0, 1, 1, true⟩, []⟩ rfl (by norm_num [guess_firm_size_upper_too_low])).1,
    (C7_ceiling_hit_aborts_without_stepping ⟨"negative", 0, 1, 0, 1⟩ cfgUnit 1 1 1 0
      ⟨0, 2, 1⟩ ⟨⟨0, 1, 1, true⟩, []⟩ rfl (by norm_num [guess_firm_size_upper_too_low])).2⟩

/-- A configuration whose integrator oracle always reports an unsuccessful
step: each `integrate(target)` call moves `t` to the target, leaves the
state vector unchanged and clears the `successful` flag.  Wage and profit
functions are the constant `1`. -/
def cfgFailStep : Config :=
  ⟨fun target ig => { t := target, y0 := ig.y0, y1 := ig.y1, success := false },
   fun _ _ _ => 1, fun _ _ _ => 1⟩

/-- Claim C9, counterexample: on the model with worker domain `[0, 10]` and
firm domain `[0, 10]` (negative assortativity) and the always-failing
integrator oracle, the solve performs exactly one `integrate` call — which
reports an unsuccessful step — and yet afterwards the driver still appends
the row of the failed step to the solution table before terminating: the
final table has 2 rows (the reset row plus the row appended after the
unsuccessful report).  This refutes the claim that once the integrator
first reports an unsuccessful step, no further solution row is appended. -/
theorem C9_counterexample :
    (cfgFailStep.oracle 5 { t := 0, y0 := 10, y1 := 1, success := true }).success = false ∧
    (solve_negative_assortative_matching ⟨"negative", 0, 10, 0, 10⟩ cfgFailStep
      2 0 3 2).steps = 1 ∧
    (solve_negative_assortative_matching ⟨"negative", 0, 10, 0, 10⟩ cfgFailStep
      2 0 3 2).state.solution.length = 2 ∧
    (solve_negative_assortative_matching ⟨"negative", 0, 10, 0, 10⟩ cfgFailStep
      2 0 3 2).outcome = Outcome.integrationFailure := by
  refine ⟨rfl, ?_, ?_, ?_⟩ <;>
    norm_num [solve_negative_assortative_matching, negLoop, negIteration,
      reset_negative_assortative_solution, evaluate_wage, evaluate_profit,
      guess_firm_size_upper_too_low, exhausted_workers, exhausted_firms,
      converged_workers, converged_firms, almost_zero_profit, almost_zero_wage,
      freshState, cfgFailStep, (by decide : ¬ (("negative" : String) = "positive"))]

/-- Claim C9, amended: once the integrator reports an unsuccessful step,
the driver still finishes the current loop iteration — appending the row of
the failed step and possibly performing one bracket update and reset — and
then terminates at the next loop check: at the top of any iteration (of
either variant) with the `successful` flag cleared, the loop halts at once
with the integration failure, returning state and bracket unchanged and
performing no further `integrate` call. -/
theorem C9_unsuccessful_step_halts_loop (m : Model) (cfg : Config)
    (guess_firm_size_upper tol step_size : ℚ) (fuel : ℕ)
    (br : BisectionBracket) (s : SolverState)
    (hs : s.integrator.success = false) :
    negLoop m cfg guess_firm_size_upper tol step_size (fuel + 1) br s =
      ⟨Outcome.integrationFailure, s, br, 0⟩ ∧
    posLoop m cfg guess_firm_size_upper tol step_size (fuel + 1) br s =
      ⟨Outcome.integrationFailure, s, br, 0⟩ := by
  constructor
  · show (match negIteration m cfg guess_firm_size_upper tol step_size br s with
      | IterOut.halt out s2 br2 integrated => ⟨out, s2, br2, if integrated then 1 else 0⟩
      | IterOut.next br2 s2 =>
        let r := negLoop m cfg guess_firm_size_upper tol step_size fuel br2 s2
        ⟨r.outcome, r.state, r.bracket, r.steps + 1⟩ : DriverResult) =
      ⟨Outcome.integrationFailure, s, br, 0⟩
    rw [negIteration, hs]
    simp
  · show (match posIteration m cfg guess_firm_size_upper tol step_size br s with
      | IterOut.halt out s2 br2 integrated => ⟨out, s2, br2, if integrated then 1 else 0⟩
      | IterOut.next br2 s2 =>
        let r := posLoop m cfg guess_firm_size_upper tol step_size fuel br2 s2
        ⟨r.outcome, r.state, r.bracket, r.steps + 1⟩ : DriverResult) =
      ⟨Outcome.integrationFailure, s, br, 0⟩
    rw [posIteration, hs]
    simp

/-- Claim C9, witness: a state with the `successful` flag already cleared;
both loops halt immediately with the integration failure and no step. -/
theorem C9_witness :
    (SolverState.mk ⟨0, 1, 1, false⟩ []).integrator.success = false ∧
    negLoop ⟨"negative", 0, 1, 0, 1⟩ cfgUnit 2 1 1 (0 + 1) ⟨0, 2, 1⟩ ⟨⟨0, 1, 1, false⟩, []⟩ =
      ⟨Outcome.integrationFailure, ⟨⟨0, 1, 1, false⟩, []⟩, ⟨0, 2, 1⟩, 0⟩ ∧
    posLoop ⟨"negative", 0, 1, 0, 1⟩ cfgUnit 2 1 1 (0 + 1) ⟨0, 2, 1⟩ ⟨⟨0, 1, 1, false⟩, []⟩ =
      ⟨Outcome.integrationFailure, ⟨⟨0, 1, 1, false⟩, []⟩, ⟨0, 2, 1⟩, 0⟩ :=
  ⟨rfl,
    (C9_unsuccessful_step_halts_loop ⟨"negative", 0, 1, 0, 1⟩ cfgUnit 2 1 1 0
      ⟨0, 2, 1⟩ ⟨⟨0, 1, 1, false⟩, []⟩ rfl).1,
    (C9_unsuccessful_step_halts_loop ⟨"negative", 0, 1, 0, 1⟩ cfgUnit 2 1 1 0
      ⟨0, 2, 1⟩ ⟨⟨0, 1, 1, false⟩, []⟩ rfl).2⟩
